import Mathlib

/-!
Verification of the toolpath parsing and derived-metrics core of
`machine-code-dashboard` (`src/app.py`).

Modelling conventions:
* an input line is a `List Char`; the whole input is a `List (List Char)`;
* Python `float` values produced by the parser are modelled exactly in `ℚ`
  (every numeral the axis regex accepts is a finite decimal);
* pandas `NaN` / absent values are modelled as `Option.none`;
* `re.search` is modelled by an explicit leftmost-match scan, with the
  greedy backtracking of the two concrete patterns resolved by hand.
-/

attribute [local semireducible] Rat.mul Rat.add Rat.inv Rat.sub Rat.ofScientific

namespace App

/-- One parsed motion command: one row of the DataFrame built by the parsing
loop of `app.py` (columns Time Step, Layer, X, Y, Z, A, B, C, E).  An axis
value is `none` when the axis regex did not match on the line. -/
structure MotionSample where
  time_step : Nat
  layer : Int
  x : Option ℚ
  y : Option ℚ
  z : Option ℚ
  a : Option ℚ
  b : Option ℚ
  c : Option ℚ
  e : Option ℚ
deriving DecidableEq, Repr

/-- Running state of the line loop of `app.py`:
`t, layer_markers, current_layer = 0, 0, -1` plus the accumulated rows. -/
structure ParseState where
  t : Nat
  layer_markers : Nat
  current_layer : Int
  samples : List MotionSample
deriving DecidableEq, Repr

/-- Whether `pat` occurs at the head of `s`. -/
def headMatch : List Char → List Char → Bool
  | [], _ => true
  | _ :: _, [] => false
  | p :: ps, c :: cs => p == c && headMatch ps cs

/-- Python's substring containment `pat in line`. -/
def containsSub (pat : List Char) : List Char → Bool
  | [] => headMatch pat []
  | c :: cs => headMatch pat (c :: cs) || containsSub pat cs

/-- The layer-marker sentinel substring of `app.py` line 63 (23 dashes). -/
def layerMarkerTok : List Char := (";-----------------------LAYER").data

/-- The motion-command token of `app.py` line 67. -/
def motionTok : List Char := ("G1").data

/-- Split a maximal leading run of decimal digits (greedy `[0-9]*`). -/
def takeDigits : List Char → List Char × List Char
  | [] => ([], [])
  | ch :: cs =>
    if ch.isDigit then
      let r := takeDigits cs
      (ch :: r.1, r.2)
    else ([], ch :: cs)

/-- Greedy match of `[0-9]*\.?[0-9]+` at the start of `s`, returning the
matched text.  Python `re` backtracking collapses to this case analysis: a
maximal digit run, then a fractional part only when a dot is followed by at
least one digit; with no leading digits a lone dot fails. -/
def numTail (s : List Char) : Option (List Char) :=
  let d1 := takeDigits s
  match d1.2 with
  | '.' :: r2 =>
    let d2 := takeDigits r2
    if d2.1.isEmpty then
      if d1.1.isEmpty then none else some d1.1
    else some (d1.1 ++ '.' :: d2.1)
  | _ => if d1.1.isEmpty then none else some d1.1

/-- Match of `[-+]?[0-9]*\.?[0-9]+` at the start of `s` (the per-axis capture
group of `app.py` line 70).  If a sign is present the rest must match there:
backtracking to the empty sign cannot succeed on a sign character. -/
def numMatch (s : List Char) : Option (List Char) :=
  match s with
  | ch :: rest =>
    if ch == '+' || ch == '-' then (numTail rest).map (fun t => ch :: t)
    else numTail s
  | [] => none

/-- `re.search(ax + r"([-+]?[0-9]*\.?[0-9]+)", line)`: the leftmost position
where the axis letter is immediately followed by a numeral; the returned text
is the capture group. -/
def axSearch (ax : Char) : List Char → Option (List Char)
  | [] => none
  | ch :: cs =>
    if ch == ax then
      match numMatch cs with
      | some t => some t
      | none => axSearch ax cs
    else axSearch ax cs

/-- Value of a digit run (Python `int` of the captured digits). -/
def digitsToNat (ds : List Char) : Nat :=
  ds.foldl (fun n ch => 10 * n + (ch.toNat - ('0').toNat)) 0

/-- Split an unsigned numeral at its decimal point. -/
def splitAtDot : List Char → List Char × Option (List Char)
  | [] => ([], none)
  | '.' :: r => ([], some r)
  | ch :: r =>
    let p := splitAtDot r
    (ch :: p.1, p.2)

/-- Value of an unsigned decimal numeral (`float`, modelled exactly in ℚ). -/
def decCore (s : List Char) : ℚ :=
  let p := splitAtDot s
  match p.2 with
  | none => (digitsToNat p.1 : ℚ)
  | some f => (digitsToNat p.1 : ℚ) + (digitsToNat f : ℚ) / ((10 : ℚ) ^ f.length)

/-- Python `float` of a matched `[-+]?[0-9]*\.?[0-9]+` numeral. -/
def decToRat (s : List Char) : ℚ :=
  match s with
  | '-' :: r => -decCore r
  | '+' :: r => decCore r
  | _ => decCore s

/-- Axis extraction for one line (`app.py` lines 68–71): `float(m.group(1))`
when the axis regex matches, else unset. -/
def extractAx (ax : Char) (line : List Char) : Option ℚ :=
  (axSearch ax line).map decToRat

/-- Python `\s` on ASCII text. -/
def isSpaceCh (ch : Char) : Bool :=
  ch == ' ' || ch == '\t' || ch == '\n' || ch == '\x0b' || ch == '\x0c' || ch == '\r'

/-- Greedy match of `\s+(\d+)` at the start of `s`: at least one whitespace
character, then the capture is the maximal digit run after all whitespace
(backtracking into the whitespace run cannot produce a digit). -/
def layerNumAt (s : List Char) : Option Nat :=
  match s with
  | ch :: cs =>
    if isSpaceCh ch then
      let ds := takeDigits (cs.dropWhile isSpaceCh)
      if ds.1.isEmpty then none else some (digitsToNat ds.1)
    else none
  | [] => none

/-- `re.search(r"LAYER\s+(\d+)", line)` (`app.py` line 65): leftmost position
where the whole pattern matches, returning Python `int` of the capture. -/
def layerSearch : List Char → Option Nat
  | [] => none
  | ch :: cs =>
    if headMatch (("LAYER").data) (ch :: cs) then
      match layerNumAt ((ch :: cs).drop 5) with
      | some n => some n
      | none => layerSearch cs
    else layerSearch cs

/-- The layer-marker branch (`app.py` lines 63–66): increment `layer_markers`
and set `current_layer` only when the `LAYER\s+(\d+)` search succeeds. -/
def markerUpd (st : ParseState) (line : List Char) : ParseState :=
  if containsSub layerMarkerTok line then
    match layerSearch line with
    | some n => ⟨st.t, st.layer_markers + 1, (n : Int), st.samples⟩
    | none => ⟨st.t, st.layer_markers + 1, st.current_layer, st.samples⟩
  else st

/-- The row appended for a motion line (`app.py` lines 68–75). -/
def mkSample (st : ParseState) (line : List Char) : MotionSample :=
  ⟨st.t, st.current_layer,
   extractAx 'X' line, extractAx 'Y' line, extractAx 'Z' line,
   extractAx 'A' line, extractAx 'B' line, extractAx 'C' line, extractAx 'E' line⟩

/-- One iteration of the `for line in lines` loop (`app.py` lines 62–76): the
marker branch runs first; then a line containing `G1` appends a sample built
from the updated state and increments `t`. -/
def parseLine (st : ParseState) (line : List Char) : ParseState :=
  if containsSub motionTok line then
    ⟨(markerUpd st line).t + 1, (markerUpd st line).layer_markers,
     (markerUpd st line).current_layer,
     (markerUpd st line).samples ++ [mkSample (markerUpd st line) line]⟩
  else markerUpd st line

/-- Initial loop state: `t, layer_markers, current_layer = 0, 0, -1`. -/
def initState : ParseState := ⟨0, 0, -1, []⟩

/-- The whole parsing loop of `app.py` lines 58–77. -/
def parse (lines : List (List Char)) : ParseState :=
  lines.foldl parseLine initState

/-- `total_steps = len(df)` (`app.py` line 80). -/
def total_steps (samples : List MotionSample) : Nat := samples.length

/-- First-occurrence deduplication (`pd.Series.unique`). -/
def uniqAux (seen : List Int) : List Int → List Int
  | [] => []
  | x :: xs => if seen.contains x then uniqAux seen xs else x :: uniqAux (x :: seen) xs

/-- `pd.Series.unique` on the Layer column. -/
def uniqInts (l : List Int) : List Int := uniqAux [] l

/-- Insertion into a ≤-sorted list, for Python `sorted`. -/
def insertSorted (x : Int) : List Int → List Int
  | [] => [x]
  | y :: ys => if x ≤ y then x :: y :: ys else y :: insertSorted x ys

/-- Python `sorted` on integers. -/
def sortInts (l : List Int) : List Int := l.foldr insertSorted []

/-- `unique_layers = sorted(df['Layer'].dropna().unique().astype(int))`
(`app.py` line 81).  The Layer column holds plain ints (the `-1` sentinel
included) and never NaN, so `dropna` is the identity on it. -/
def unique_layers (samples : List MotionSample) : List Int :=
  sortInts (uniqInts (samples.map MotionSample.layer))

/-- `total_layers = len(unique_layers)` (`app.py` line 82). -/
def total_layers (samples : List MotionSample) : Nat :=
  (unique_layers samples).length

/-- The defined values of one axis column (pandas min/max skip NaN). -/
def axisVals (f : MotionSample → Option ℚ) (samples : List MotionSample) : List ℚ :=
  samples.filterMap f

/-- `df[ax].min()` (`app.py` line 83); NaN on an empty column is `none`. -/
def axisMin (f : MotionSample → Option ℚ) (samples : List MotionSample) : Option ℚ :=
  match axisVals f samples with
  | [] => none
  | v :: vs => some (vs.foldl min v)

/-- `df[ax].max()` (`app.py` line 83). -/
def axisMax (f : MotionSample → Option ℚ) (samples : List MotionSample) : Option ℚ :=
  match axisVals f samples with
  | [] => none
  | v :: vs => some (vs.foldl max v)

/-- `lengths[ax] = bbox[ax][1] - bbox[ax][0]` (`app.py` line 84); NaN
propagates, so the length is defined exactly when the axis has a value. -/
def axisLen (f : MotionSample → Option ℚ) (samples : List MotionSample) : Option ℚ :=
  match axisMin f samples, axisMax f samples with
  | some lo, some hi => some (hi - lo)
  | _, _ => none

/-- `volume_m3 = np.prod([lengths[ax]/1000 for ax in ['X','Y','Z']])`
(`app.py` line 85); NaN propagates through the product. -/
def volume_m3 (samples : List MotionSample) : Option ℚ :=
  match axisLen MotionSample.x samples, axisLen MotionSample.y samples,
        axisLen MotionSample.z samples with
  | some lx, some ly, some lz => some (lx / 1000 * (ly / 1000) * (lz / 1000))
  | _, _, _ => none

/-- `df_slice = df[(df['Layer'] >= low) & (df['Layer'] <= high)]`
(`app.py` line 122). -/
def df_slice (low high : Int) (samples : List MotionSample) : List MotionSample :=
  samples.filter (fun s => decide (low ≤ s.layer) && decide (s.layer ≤ high))

/-- Row has all of X, Y, Z defined (`dropna(subset=['X','Y','Z'])`). -/
def fullyDefined (s : MotionSample) : Bool := s.x.isSome && s.y.isSome && s.z.isSome

/-- Stable insertion by Time Step. -/
def insertByTime (m : MotionSample) : List MotionSample → List MotionSample
  | [] => [m]
  | x :: xs => if m.time_step ≤ x.time_step then m :: x :: xs else x :: insertByTime m xs

/-- `sort_values('Time Step')` as an insertion sort. -/
def sortByTime (l : List MotionSample) : List MotionSample := l.foldr insertByTime []

/-- `df3 = df_slice.dropna(subset=['X','Y','Z']).sort_values('Time Step')`
(`app.py` line 123), applied to an arbitrary sample sequence. -/
def df3 (samples : List MotionSample) : List MotionSample :=
  sortByTime (samples.filter fullyDefined)

/-- The (X, Y, Z) coordinates of a fully defined row. -/
def posOf (s : MotionSample) : ℚ × ℚ × ℚ := (s.x.getD 0, s.y.getD 0, s.z.getD 0)

/-- Euclidean distance between consecutive positions, one entry of
`np.linalg.norm(np.diff(coords, axis=0), axis=1)` (`app.py` line 130). -/
noncomputable def dist3 (p q : ℚ × ℚ × ℚ) : ℝ :=
  Real.sqrt (((q.1 - p.1 : ℚ) : ℝ) ^ 2 + ((q.2.1 - p.2.1 : ℚ) : ℝ) ^ 2
    + ((q.2.2 - p.2.2 : ℚ) : ℝ) ^ 2)

/-- The norms of all consecutive differences of a position list. -/
noncomputable def consecDists : List (ℚ × ℚ × ℚ) → List ℝ
  | p :: q :: rest => dist3 p q :: consecDists (q :: rest)
  | _ => []

/-- The Distance color series `np.concatenate([[0], d])` (`app.py` line 131). -/
noncomputable def dispColor (ps : List (ℚ × ℚ × ℚ)) : List ℝ := 0 :: consecDists ps

/-- Follows the spec's words, for comparison with `total_layers`: the count of
distinct defined layer values, excluding unset (`-1`). -/
def spec_total_layers (samples : List MotionSample) : Nat :=
  (uniqInts ((samples.map MotionSample.layer).filter (fun y => y != -1))).length

/-- Follows the spec's words, for comparison with `df_slice`: layer-range
selection keeping only samples whose layer is defined and inside `[low, high]`. -/
def spec_slice (low high : Int) (samples : List MotionSample) : List MotionSample :=
  samples.filter
    (fun s => (s.layer != -1) && (decide (low ≤ s.layer) && decide (s.layer ≤ high)))

/-- Modelled from the spec: layer-height anomaly detection (spec §4.2) is
absent from `src/app.py`; the first Z of a layer is the Z value of the first
sample carrying that layer. -/
def firstZ (samples : List MotionSample) (lay : Int) : Option ℚ :=
  match samples.filter (fun s => s.layer == lay) with
  | [] => none
  | s :: _ => s.z

/-- Modelled from the spec: the defined layers (unset `-1` excluded), sorted
by layer id. -/
def definedLayers (samples : List MotionSample) : List Int :=
  sortInts (uniqInts ((samples.map MotionSample.layer).filter (fun y => y != -1)))

/-- Modelled from the spec: the first-Z sequence across sorted defined layers. -/
def firstZs (samples : List MotionSample) : List ℚ :=
  (definedLayers samples).filterMap (fun lay => firstZ samples lay)

/-- Consecutive differences of a list of rationals. -/
def consecDiffs : List ℚ → List ℚ
  | a :: b :: rest => (b - a) :: consecDiffs (b :: rest)
  | _ => []

/-- Modelled from the spec: `height[i] = firstZ[layer_i] - firstZ[layer_i-1]`
across sorted defined layers. -/
def layerHeights (samples : List MotionSample) : List ℚ :=
  consecDiffs (firstZs samples)

/-- Modelled from the spec: rounding to 3 decimal digits (half up), exact
on ℚ. -/
def round3 (q : ℚ) : ℚ := ((Rat.floor (q * 1000 + 1 / 2) : Int) : ℚ) / 1000

/-- Modelled from the spec: the 41 expected discrete step sizes
0.0, 0.1, …, 4.0, each rounded to 3 decimals. -/
def expectedSteps : List ℚ := (List.range 41).map (fun k => round3 ((k : ℚ) / 10))

/-- Modelled from the spec: a height difference is anomalous iff its 3-decimal
rounding is not a member of the expected step set. -/
def isAnomalous (d : ℚ) : Bool := !(expectedSteps.contains (round3 d))

/-- Modelled from the spec: the anomalous layer-height differences. -/
def anomalies (samples : List MotionSample) : List ℚ :=
  (layerHeights samples).filter (fun d => isAnomalous d)

/-- Spec §8 example motion line. -/
def exLine2 : List Char := ("G1 X1.5 Y-2.25 Z0").data

/-- A marker line carrying layer id 3 (spec §8 example). -/
def markerLine3 : List Char := (";-----------------------LAYER 3").data

/-- Positions (0,0,0), (3,4,0), (3,4,0) as motion lines (spec §8 example). -/
def dispDemoLines : List (List Char) :=
  [("G1 X0 Y0 Z0").data, ("G1 X3 Y4 Z0").data, ("G1 X3 Y4 Z0").data]

/-- An input whose six samples carry layers -1, 0, 1, 1, 2, 3 in order
(spec §8 filtering example). -/
def layerDemoLines : List (List Char) :=
  [("G1 X0 Y0 Z0").data,
   (";-----------------------LAYER 0").data,
   ("G1 X1 Y0 Z0").data,
   (";-----------------------LAYER 1").data,
   ("G1 X2 Y0 Z0").data,
   ("G1 X3 Y0 Z0").data,
   (";-----------------------LAYER 2").data,
   ("G1 X4 Y0 Z0").data,
   (";-----------------------LAYER 3").data,
   ("G1 X5 Y0 Z0").data]

/-- Four layers whose first Z values are 0.0, 0.2, 0.2, 5.0 (spec §8
anomaly example). -/
def anomalyDemoLines : List (List Char) :=
  [(";-----------------------LAYER 0").data,
   ("G1 X0 Y0 Z0").data,
   (";-----------------------LAYER 1").data,
   ("G1 X0 Y0 Z0.2").data,
   (";-----------------------LAYER 2").data,
   ("G1 X0 Y0 Z0.2").data,
   (";-----------------------LAYER 3").data,
   ("G1 X0 Y0 Z5").data]

end App

namespace App

theorem markerUpd_t (st : ParseState) (line : List Char) : (markerUpd st line).t = st.t := by
  unfold markerUpd
  split
  · split <;> rfl
  · rfl

theorem markerUpd_samples (st : ParseState) (line : List Char) :
    (markerUpd st line).samples = st.samples := by
  unfold markerUpd
  split
  · split <;> rfl
  · rfl

theorem markerUpd_layer (st : ParseState) (line : List Char) :
    (markerUpd st line).current_layer = st.current_layer ∨
      ∃ n : Nat, layerSearch line = some n ∧ (markerUpd st line).current_layer = (n : Int) := by
  unfold markerUpd
  split
  · split
    · next n h => exact Or.inr ⟨n, h, rfl⟩
    · exact Or.inl rfl
  · exact Or.inl rfl

theorem parseLine_t (st : ParseState) (line : List Char) :
    (parseLine st line).t = if containsSub motionTok line then st.t + 1 else st.t := by
  unfold parseLine
  split <;> simp [markerUpd_t]

theorem parseLine_samples (st : ParseState) (line : List Char) :
    (parseLine st line).samples =
      if containsSub motionTok line then st.samples ++ [mkSample (markerUpd st line) line]
      else st.samples := by
  unfold parseLine
  split <;> simp [markerUpd_samples]

theorem parseLine_layer (st : ParseState) (line : List Char) :
    (parseLine st line).current_layer = (markerUpd st line).current_layer := by
  unfold parseLine
  split <;> rfl

theorem parseLine_markers (st : ParseState) (line : List Char) :
    (parseLine st line).layer_markers = (markerUpd st line).layer_markers := by
  unfold parseLine
  split <;> rfl

theorem mkSample_time_step (st : ParseState) (line : List Char) :
    (mkSample st line).time_step = st.t := rfl

theorem parse_fold_t (lines : List (List Char)) : ∀ st : ParseState,
    (lines.foldl parseLine st).t
      = st.t + (lines.filter (fun l => containsSub motionTok l)).length := by
  induction lines with
  | nil => intro st; simp
  | cons line rest ih =>
    intro st
    rw [List.foldl_cons, ih]
    by_cases h : containsSub motionTok line = true
    · simp [List.filter_cons, h, parseLine_t]
      omega
    · simp [List.filter_cons, h, parseLine_t]

theorem parse_fold_samples_time (lines : List (List Char)) : ∀ st : ParseState,
    st.samples.map MotionSample.time_step = List.range st.t →
    (lines.foldl parseLine st).samples.map MotionSample.time_step
      = List.range ((lines.foldl parseLine st).t) := by
  induction lines with
  | nil => intro st h; simpa using h
  | cons line rest ih =>
    intro st h
    rw [List.foldl_cons]
    apply ih
    by_cases hm : containsSub motionTok line = true
    · rw [parseLine_samples, if_pos hm, parseLine_t, if_pos hm]
      have hts : (mkSample (markerUpd st line) line).time_step = st.t := by
        rw [mkSample_time_step, markerUpd_t]
      simp [h, hts, List.range_succ]
    · rw [parseLine_samples, if_neg hm, parseLine_t, if_neg hm, h]

/-- C1: every line containing the motion token produces exactly one sample, and
the `time_step` values of the sample sequence, in parse order, are exactly
`0, 1, …, n-1` where `n` is the number of motion lines. -/
theorem c1_time_steps_dense (lines : List (List Char)) :
    (parse lines).samples.map MotionSample.time_step
        = List.range ((lines.filter (fun l => containsSub motionTok l)).length) ∧
    (parse lines).samples.length
        = (lines.filter (fun l => containsSub motionTok l)).length := by
  have h1 := parse_fold_samples_time lines initState (by rfl)
  have h2 := parse_fold_t lines initState
  unfold parse
  refine ⟨?_, ?_⟩
  · unfold parse at h1 h2
    rw [h1, h2]
    norm_num [initState]
  · unfold parse at h1 h2
    have hlen := congrArg List.length h1
    rw [List.length_map, List.length_range, h2] at hlen
    simpa [initState] using hlen

/-- C2: each of the seven axes is extracted independently by the anchored
pattern "letter immediately followed by an optionally signed decimal number",
leftmost match; a letter not directly followed by a number never matches.
`G1 X1.5 Y-2.25 Z0` yields X=1.5, Y=-2.25, Z=0.0 and A,B,C,E unset. -/
theorem c2_axis_extraction :
    (parse [exLine2]).samples
        = [⟨0, -1, some (3/2), some (-(9/4)), some 0, none, none, none, none⟩] ∧
    extractAx 'E' (("G1 HELLO X2").data) = none ∧
    (parse [("G1 X1 X2").data]).samples.map MotionSample.x = [some 1] ∧
    extractAx 'X' (("G1 X1.2.3").data) = some (6/5) ∧
    extractAx 'X' (("G1 X..5").data) = none := by
  decide

end App

namespace App

/-- C3: a line containing the layer-marker substring increments
`layer_markers` by exactly one whether or not extraction succeeds; successful
extraction of an integer after `LAYER` sets `current_layer`, failed extraction
leaves it unchanged; and (last conjunct) a line without the marker substring
never changes `current_layer`, so samples built later keep carrying the value
until the next successful marker. -/
theorem c3_layer_marker (st : ParseState) (line : List Char)
    (h : containsSub layerMarkerTok line = true) :
    (parseLine st line).layer_markers = st.layer_markers + 1 ∧
    (∀ n : Nat, layerSearch line = some n →
      (parseLine st line).current_layer = (n : Int)) ∧
    (layerSearch line = none →
      (parseLine st line).current_layer = st.current_layer) ∧
    (∀ (st2 : ParseState) (line2 : List Char),
      containsSub layerMarkerTok line2 = false →
      (parseLine st2 line2).current_layer = st2.current_layer ∧
      ∀ s ∈ (parseLine st2 line2).samples,
        s ∈ st2.samples ∨ s.layer = st2.current_layer) := by
  refine ⟨?_, ?_, ?_, ?_⟩
  · rw [parseLine_markers]
    unfold markerUpd
    rw [if_pos h]
    split <;> rfl
  · intro n hn
    rw [parseLine_layer]
    unfold markerUpd
    rw [if_pos h, hn]
  · intro hn
    rw [parseLine_layer]
    unfold markerUpd
    rw [if_pos h, hn]
  · intro st2 line2 h2
    have hm : markerUpd st2 line2 = st2 := by
      unfold markerUpd
      rw [if_neg (by simp [h2])]
    constructor
    · rw [parseLine_layer, hm]
    · intro s hs
      rw [parseLine_samples, hm] at hs
      by_cases hg : containsSub motionTok line2 = true
      · rw [if_pos hg] at hs
        rcases List.mem_append.mp hs with hleft | hright
        · exact Or.inl hleft
        · refine Or.inr ?_
          have : s = mkSample st2 line2 := by simpa using hright
          rw [this]
          rfl
      · rw [if_neg hg] at hs
        exact Or.inl hs

theorem c3_layer_marker_witness :
    containsSub layerMarkerTok markerLine3 = true ∧
    (parseLine initState markerLine3).layer_markers = initState.layer_markers + 1 ∧
    (parseLine initState markerLine3).current_layer = ((3 : Nat) : Int) :=
  ⟨by decide, (c3_layer_marker initState markerLine3 (by decide)).1,
    (c3_layer_marker initState markerLine3 (by decide)).2.1 3 (by decide)⟩

/-- C4: a line matching both the layer-marker pattern and the motion pattern
gets both behaviors; the marker update of `current_layer` is applied before
the motion sample of that same line is built, so the appended sample carries
the newly extracted layer value. -/
theorem c4_marker_then_motion (st : ParseState) (line : List Char) (n : Nat)
    (hm : containsSub layerMarkerTok line = true)
    (hg : containsSub motionTok line = true)
    (hn : layerSearch line = some n) :
    (parseLine st line).layer_markers = st.layer_markers + 1 ∧
    (parseLine st line).t = st.t + 1 ∧
    (parseLine st line).current_layer = (n : Int) ∧
    (parseLine st line).samples = st.samples ++
      [⟨st.t, (n : Int),
        extractAx 'X' line, extractAx 'Y' line, extractAx 'Z' line,
        extractAx 'A' line, extractAx 'B' line, extractAx 'C' line,
        extractAx 'E' line⟩] := by
  have hupd : markerUpd st line = ⟨st.t, st.layer_markers + 1, (n : Int), st.samples⟩ := by
    unfold markerUpd
    rw [if_pos hm, hn]
  refine ⟨?_, ?_, ?_, ?_⟩
  · rw [parseLine_markers, hupd]
  · rw [parseLine_t, if_pos hg]
  · rw [parseLine_layer, hupd]
  · rw [parseLine_samples, if_pos hg, hupd]
    rfl

theorem c4_marker_then_motion_witness :
    containsSub layerMarkerTok ((";-----------------------LAYER 2 G1 X1").data) = true ∧
    containsSub motionTok ((";-----------------------LAYER 2 G1 X1").data) = true ∧
    layerSearch ((";-----------------------LAYER 2 G1 X1").data) = some 2 ∧
    (parseLine initState ((";-----------------------LAYER 2 G1 X1").data)).samples
      = initState.samples ++
        [⟨initState.t, ((2 : Nat) : Int),
          extractAx 'X' ((";-----------------------LAYER 2 G1 X1").data),
          extractAx 'Y' ((";-----------------------LAYER 2 G1 X1").data),
          extractAx 'Z' ((";-----------------------LAYER 2 G1 X1").data),
          extractAx 'A' ((";-----------------------LAYER 2 G1 X1").data),
          extractAx 'B' ((";-----------------------LAYER 2 G1 X1").data),
          extractAx 'C' ((";-----------------------LAYER 2 G1 X1").data),
          extractAx 'E' ((";-----------------------LAYER 2 G1 X1").data)⟩] :=
  ⟨by decide, by decide, by decide,
    (c4_marker_then_motion initState ((";-----------------------LAYER 2 G1 X1").data) 2
      (by decide) (by decide) (by decide)).2.2.2⟩

theorem parse_fold_layer_ok (lines : List (List Char)) : ∀ st : ParseState,
    (st.current_layer = -1 ∨ 0 ≤ st.current_layer) →
    (∀ s ∈ st.samples, s.layer = -1 ∨ 0 ≤ s.layer) →
    ((lines.foldl parseLine st).current_layer = -1 ∨
      0 ≤ (lines.foldl parseLine st).current_layer) ∧
    (∀ s ∈ (lines.foldl parseLine st).samples, s.layer = -1 ∨ 0 ≤ s.layer) := by
  induction lines with
  | nil => intro st h1 h2; exact ⟨h1, h2⟩
  | cons line rest ih =>
    intro st h1 h2
    rw [List.foldl_cons]
    have hlay : (parseLine st line).current_layer = -1 ∨
        0 ≤ (parseLine st line).current_layer := by
      rw [parseLine_layer]
      rcases markerUpd_layer st line with heq | ⟨n, _, heq⟩
      · rw [heq]; exact h1
      · rw [heq]; exact Or.inr (Int.natCast_nonneg n)
    apply ih
    · exact hlay
    · intro s hs
      rw [parseLine_samples] at hs
      by_cases hg : containsSub motionTok line = true
      · rw [if_pos hg] at hs
        rcases List.mem_append.mp hs with hleft | hright
        · exact h2 s hleft
        · have hsm : s = mkSample (markerUpd st line) line := by simpa using hright
          have : s.layer = (markerUpd st line).current_layer := by rw [hsm]; rfl
          rw [this, ← parseLine_layer]
          exact hlay
      · rw [if_neg hg] at hs
        exact h2 s hs

/-- C10: invariant of the parse loop: every sample's recorded layer is either
the unset sentinel `-1` or a non-negative integer, because `LAYER\s+(\d+)`
extraction matches only unsigned digits; so the sentinel is never equal to an
extracted layer id and "unset" is unambiguous in the output. -/
theorem c10_layer_sentinel (lines : List (List Char)) (s : MotionSample)
    (hs : s ∈ (parse lines).samples) :
    (s.layer = -1 ∨ 0 ≤ s.layer) ∧
    (∀ (line : List Char) (n : Nat), layerSearch line = some n → 0 ≤ (n : Int)) := by
  refine ⟨?_, fun line n _ => Int.natCast_nonneg n⟩
  have h := parse_fold_layer_ok lines initState (Or.inl rfl) (by intro s hs; simp [initState] at hs)
  exact h.2 s hs

theorem c10_layer_sentinel_witness :
    (⟨0, -1, some 1, none, none, none, none, none, none⟩ : MotionSample)
        ∈ (parse [("G1 X1").data]).samples ∧
    ((⟨0, -1, some 1, none, none, none, none, none, none⟩ : MotionSample).layer = -1 ∨
      0 ≤ (⟨0, -1, some 1, none, none, none, none, none, none⟩ : MotionSample).layer) :=
  ⟨by decide,
    (c10_layer_sentinel [("G1 X1").data]
      ⟨0, -1, some 1, none, none, none, none, none, none⟩ (by decide)).1⟩

end App

namespace App

theorem card_insert_erase (x : Int) (u : Finset Int) :
    (insert x u).card = (u.erase x).card + 1 := by
  have h1 : insert x u = insert x (u.erase x) := by
    ext y
    by_cases hy : y = x <;> simp [hy]
  rw [h1, Finset.card_insert_of_not_mem (Finset.not_mem_erase x u)]

theorem uniqAux_length (l : List Int) : ∀ seen : List Int,
    (uniqAux seen l).length = (l.toFinset \ seen.toFinset).card := by
  induction l with
  | nil => intro seen; simp [uniqAux]
  | cons x xs ih =>
    intro seen
    by_cases hx : seen.contains x
    · have hmem : x ∈ seen := by simpa using hx
      rw [uniqAux, if_pos hx, ih]
      congr 1
      ext y
      by_cases hy : y = x <;> simp [hy, hmem]
    · have hmem : x ∉ seen := by simpa using hx
      rw [uniqAux, if_neg hx]
      simp only [List.length_cons]
      rw [ih (x :: seen)]
      have hset : (x :: xs).toFinset \ seen.toFinset
          = insert x (xs.toFinset \ (x :: seen).toFinset) := by
        ext y
        by_cases hy : y = x <;> simp [hy, hmem]
      rw [hset, Finset.card_insert_of_not_mem (by simp)]

theorem uniqInts_length (l : List Int) : (uniqInts l).length = l.toFinset.card := by
  rw [uniqInts, uniqAux_length]
  simp

theorem insertSorted_length (x : Int) (l : List Int) :
    (insertSorted x l).length = l.length + 1 := by
  induction l with
  | nil => rfl
  | cons y ys ih =>
    rw [insertSorted]
    split <;> simp [ih]

theorem sortInts_length (l : List Int) : (sortInts l).length = l.length := by
  induction l with
  | nil => rfl
  | cons x xs ih =>
    unfold sortInts at *
    rw [List.foldr_cons, insertSorted_length, ih]
    rfl

/-- C5 counterexample: one motion line with no preceding marker yields a single
sample whose layer is the unset sentinel; the code's `total_layers` counts it
(`dropna` never removes the integer `-1`), while the claimed count of distinct
defined layers excluding unset is 0. -/
theorem c5_total_layers_counterexample :
    total_layers (parse [("G1 X1").data]).samples = 1 ∧
    spec_total_layers (parse [("G1 X1").data]).samples = 0 := by
  decide

/-- C5 amended: `total_layers` equals the number of distinct layer values among
the samples with the unset sentinel `-1` counted like any other value, i.e.
the count of distinct defined layers plus one exactly when some sample's layer
is unset. -/
theorem c5_total_layers_amended (samples : List MotionSample) :
    total_layers samples = spec_total_layers samples
      + (if (-1 : Int) ∈ samples.map MotionSample.layer then 1 else 0) := by
  unfold total_layers unique_layers spec_total_layers
  rw [sortInts_length, uniqInts_length, uniqInts_length]
  have hfil : ((samples.map MotionSample.layer).filter (fun y => y != -1)).toFinset
      = (samples.map MotionSample.layer).toFinset.erase (-1) := by
    ext y
    simp [List.mem_filter, bne_iff_ne]
    tauto
  rw [hfil]
  by_cases hm : (-1 : Int) ∈ samples.map MotionSample.layer
  · rw [if_pos hm]
    have h := Finset.card_erase_add_one (List.mem_toFinset.mpr hm)
    omega
  · rw [if_neg hm, Finset.erase_eq_of_not_mem (by simpa using hm)]
    omega

/-- C6 counterexample: the range filter is a plain `low ≤ layer ≤ high` test on
the stored value, and unset layers are stored as `-1`; with range `[-1, 0]` the
unset-layer sample is included, while the claim's "defined and in range"
selection is empty. -/
theorem c6_slice_counterexample :
    (df_slice (-1) 0 (parse [("G1 X1").data]).samples).map MotionSample.layer = [-1] ∧
    spec_slice (-1) 0 (parse [("G1 X1").data]).samples = [] := by
  decide

/-- C6 amended: range filtering keeps exactly the samples whose stored layer
value (unset recorded as `-1`) lies in `[low, high]`; whenever `0 ≤ low` this
coincides with the claimed "defined and in range" selection, so unset samples
are excluded from every such selection — in particular filtering `[1, 2]` over
samples with layers `[-1, 0, 1, 1, 2, 3]` returns exactly the two layer-1
samples and the one layer-2 sample. -/
theorem c6_slice_amended (low high : Int) (samples : List MotionSample)
    (hlow : 0 ≤ low) :
    df_slice low high samples = spec_slice low high samples ∧
    (parse layerDemoLines).samples.map MotionSample.layer = [-1, 0, 1, 1, 2, 3] ∧
    (df_slice 1 2 (parse layerDemoLines).samples).map MotionSample.time_step = [2, 3, 4] ∧
    (df_slice 1 2 (parse layerDemoLines).samples).map MotionSample.layer = [1, 1, 2] := by
  refine ⟨?_, by decide, by decide, by decide⟩
  unfold df_slice spec_slice
  apply List.filter_congr
  intro s _
  by_cases h1 : low ≤ s.layer
  · by_cases h2 : s.layer ≤ high
    · have hne : s.layer ≠ -1 := by omega
      simp [h1, h2, hne]
    · simp [h1, h2]
  · simp [h1]

theorem c6_slice_amended_witness :
    (0 : Int) ≤ 1 ∧
    df_slice 1 2 (parse layerDemoLines).samples
      = spec_slice 1 2 (parse layerDemoLines).samples :=
  ⟨by decide, (c6_slice_amended 1 2 (parse layerDemoLines).samples (by decide)).1⟩

theorem parse_fold_no_motion (lines : List (List Char)) : ∀ st : ParseState,
    (∀ l ∈ lines, containsSub motionTok l = false) →
    (lines.foldl parseLine st).samples = st.samples := by
  induction lines with
  | nil => intro st _; rfl
  | cons line rest ih =>
    intro st h
    have hline : containsSub motionTok line = false := h line (List.mem_cons_self _ _)
    rw [List.foldl_cons, ih _ (fun l hl => h l (List.mem_cons_of_mem _ hl)),
      parseLine_samples, hline]
    simp

theorem axisLen_none_iff (f : MotionSample → Option ℚ) (samples : List MotionSample) :
    axisLen f samples = none ↔ axisVals f samples = [] := by
  unfold axisLen axisMin axisMax
  cases h : axisVals f samples <;> simp [h]

/-- C9: the enclosing volume is the product over X, Y, Z of `(max - min)/1000`
of the axis's defined values and is undefined — not an exception, not zero —
whenever some axis has no defined value; with zero motion lines the sample
sequence is empty, `total_steps` is 0, and every axis length and the volume
are undefined. -/
theorem c9_volume (lines : List (List Char))
    (hno : ∀ l ∈ lines, containsSub motionTok l = false)
    (samples : List MotionSample) :
    (parse lines).samples = [] ∧
    total_steps (parse lines).samples = 0 ∧
    axisLen MotionSample.x (parse lines).samples = none ∧
    axisLen MotionSample.y (parse lines).samples = none ∧
    axisLen MotionSample.z (parse lines).samples = none ∧
    volume_m3 (parse lines).samples = none ∧
    (volume_m3 samples = none ↔
      (axisVals MotionSample.x samples = [] ∨ axisVals MotionSample.y samples = [] ∨
       axisVals MotionSample.z samples = [])) ∧
    (∀ lx ly lz : ℚ, axisLen MotionSample.x samples = some lx →
      axisLen MotionSample.y samples = some ly →
      axisLen MotionSample.z samples = some lz →
      volume_m3 samples = some (lx / 1000 * (ly / 1000) * (lz / 1000))) := by
  have hemp : (parse lines).samples = [] := parse_fold_no_motion lines initState hno
  refine ⟨hemp, ?_, ?_, ?_, ?_, ?_, ?_, ?_⟩
  · simp [total_steps, hemp]
  · rw [hemp]; rfl
  · rw [hemp]; rfl
  · rw [hemp]; rfl
  · rw [hemp]; rfl
  · cases hx : axisLen MotionSample.x samples with
    | none =>
      simp only [volume_m3, hx]
      simp only [true_iff, eq_self_iff_true]
      exact Or.inl ((axisLen_none_iff _ _).mp hx)
    | some lx =>
      cases hy : axisLen MotionSample.y samples with
      | none =>
        simp only [volume_m3, hx, hy]
        simp only [true_iff, eq_self_iff_true]
        exact Or.inr (Or.inl ((axisLen_none_iff _ _).mp hy))
      | some ly =>
        cases hz : axisLen MotionSample.z samples with
        | none =>
          simp only [volume_m3, hx, hy, hz]
          simp only [true_iff, eq_self_iff_true]
          exact Or.inr (Or.inr ((axisLen_none_iff _ _).mp hz))
        | some lz =>
          simp only [volume_m3, hx, hy, hz]
          constructor
          · intro h
            exact absurd h (by simp)
          · intro h
            rcases h with h | h | h
            · rw [← axisLen_none_iff] at h
              rw [hx] at h
              exact absurd h (by simp)
            · rw [← axisLen_none_iff] at h
              rw [hy] at h
              exact absurd h (by simp)
            · rw [← axisLen_none_iff] at h
              rw [hz] at h
              exact absurd h (by simp)
  · intro lx ly lz h1 h2 h3
    unfold volume_m3
    rw [h1, h2, h3]

theorem c9_volume_witness :
    (parse [markerLine3]).samples = [] ∧
    volume_m3 (parse [markerLine3]).samples = none :=
  ⟨(c9_volume [markerLine3] (by decide) []).1,
    (c9_volume [markerLine3] (by decide) []).2.2.2.2.2.1⟩

end App

namespace App

theorem insertByTime_of_le (m x : MotionSample) (xs : List MotionSample)
    (h : m.time_step ≤ x.time_step) : insertByTime m (x :: xs) = m :: x :: xs := by
  unfold insertByTime
  rw [if_pos h]

theorem sortByTime_of_sorted (l : List MotionSample)
    (h : l.Pairwise (fun u v => u.time_step ≤ v.time_step)) : sortByTime l = l := by
  induction l with
  | nil => rfl
  | cons m xs ih =>
    have hp := List.pairwise_cons.mp h
    unfold sortByTime at *
    rw [List.foldr_cons, ih hp.2]
    cases xs with
    | nil => rfl
    | cons x xs2 => exact insertByTime_of_le m x xs2 (hp.1 x (List.mem_cons_self _ _))

theorem consecDists_length : ∀ ps : List (ℚ × ℚ × ℚ), (consecDists ps).length = ps.length - 1
  | [] => rfl
  | [_] => rfl
  | p :: q :: rest => by
    have ih := consecDists_length (q :: rest)
    simp only [consecDists, List.length_cons] at *
    omega

theorem consecDists_get : ∀ (ps : List (ℚ × ℚ × ℚ)) (i : Nat) (p q : ℚ × ℚ × ℚ),
    ps.get? i = some p → ps.get? (i + 1) = some q →
    (consecDists ps).get? i = some (dist3 p q)
  | [], _, _, _, hp, _ => by simp at hp
  | [_], i, _, _, hp, hq => by
    cases i with
    | zero => simp at hq
    | succ j => simp at hp
  | _ :: _ :: _, 0, _, _, hp, hq => by
    simp at hp hq
    simp [consecDists, hp, hq]
  | r :: s :: rest, (j + 1), p, q, hp, hq => by
    have ih := consecDists_get (s :: rest) j p q (by simpa using hp) (by simpa using hq)
    simpa [consecDists] using ih

/-- C7: the displacement series is computed over the subsequence of samples
with all of X, Y, Z defined (dropped, not zero-filled), in time-step order;
its first entry is 0 and each subsequent entry is the Euclidean distance from
the previous retained position; for positions (0,0,0), (3,4,0), (3,4,0) the
series is [0, 5.0, 0.0]. -/
theorem c7_displacement (samples : List MotionSample)
    (hsorted : samples.Pairwise (fun u v => u.time_step ≤ v.time_step))
    (i : Nat)
    (hi : i + 1 < ((samples.filter fullyDefined).map posOf).length) :
    df3 samples = samples.filter fullyDefined ∧
    (dispColor ((df3 samples).map posOf)).head? = some 0 ∧
    ((df3 samples).map posOf ≠ [] →
      (dispColor ((df3 samples).map posOf)).length = (df3 samples).length) ∧
    (dispColor ((samples.filter fullyDefined).map posOf)).get? (i + 1)
      = some (dist3
          (((samples.filter fullyDefined).map posOf).get ⟨i, Nat.lt_of_succ_lt hi⟩)
          (((samples.filter fullyDefined).map posOf).get ⟨i + 1, hi⟩)) ∧
    dispColor ((df3 (parse dispDemoLines).samples).map posOf) = [0, 5, 0] := by
  have hdf : df3 samples = samples.filter fullyDefined :=
    sortByTime_of_sorted _ (hsorted.sublist (List.filter_sublist _))
  refine ⟨hdf, rfl, ?_, ?_, ?_⟩
  · intro hne
    rw [hdf] at hne ⊢
    have hlen : ((samples.filter fullyDefined).map posOf).length ≠ 0 :=
      (List.length_pos.mpr hne).ne'
    simp only [dispColor, List.length_cons, consecDists_length, List.length_map] at *
    omega
  · have h1 : ((samples.filter fullyDefined).map posOf).get? i
        = some (((samples.filter fullyDefined).map posOf).get ⟨i, Nat.lt_of_succ_lt hi⟩) :=
      List.get?_eq_get (Nat.lt_of_succ_lt hi)
    have h2 : ((samples.filter fullyDefined).map posOf).get? (i + 1)
        = some (((samples.filter fullyDefined).map posOf).get ⟨i + 1, hi⟩) :=
      List.get?_eq_get hi
    have h := consecDists_get ((samples.filter fullyDefined).map posOf) i _ _ h1 h2
    simpa [dispColor] using h
  · have hex : (df3 (parse dispDemoLines).samples).map posOf
        = [((0 : ℚ), (0 : ℚ), (0 : ℚ)), (3, 4, 0), (3, 4, 0)] := by decide
    rw [hex]
    have h5 : dist3 ((0 : ℚ), (0 : ℚ), (0 : ℚ)) (3, 4, 0) = 5 := by
      unfold dist3
      push_cast
      norm_num
      rw [show (25 : ℝ) = 5 * 5 by norm_num]
      exact Real.sqrt_mul_self (by norm_num)
    have h0 : dist3 ((3 : ℚ), (4 : ℚ), (0 : ℚ)) (3, 4, 0) = 0 := by
      unfold dist3
      push_cast
      norm_num
    have h5' : dist3 (0 : ℚ × ℚ × ℚ) (3, 4, 0) = 5 := h5
    simp [dispColor, consecDists, h5, h5', h0]

theorem c7_displacement_witness :
    (dispColor (((parse dispDemoLines).samples.filter fullyDefined).map posOf)).get? 1
      = some (dist3
          ((((parse dispDemoLines).samples.filter fullyDefined).map posOf).get ⟨0, by decide⟩)
          ((((parse dispDemoLines).samples.filter fullyDefined).map posOf).get ⟨1, by decide⟩)) :=
  (c7_displacement (parse dispDemoLines).samples (by decide) 0 (by decide)).2.2.2.1

/-- C8: over the dataset whose four layers have first-Z values
0.0, 0.2, 0.2, 5.0, the layer-height sequence (first Z of each layer sorted by
layer id, unset excluded, consecutive differences) is [0.2, 0.0, 4.8], and
exactly 4.8 is flagged anomalous: its 3-decimal rounding is not among the 41
expected step sizes 0.0, 0.1, …, 4.0, while 0.2 and 0.0 are. -/
theorem c8_layer_height_anomalies :
    firstZs (parse anomalyDemoLines).samples = [0, 1/5, 1/5, 5] ∧
    layerHeights (parse anomalyDemoLines).samples = [1/5, 0, 24/5] ∧
    anomalies (parse anomalyDemoLines).samples = [24/5] ∧
    expectedSteps.length = 41 ∧
    isAnomalous (1/5) = false ∧ isAnomalous 0 = false ∧ isAnomalous (24/5) = true := by
  decide

end App
